import Mathlib

/-!
# Verification of the byteside state-broadcast subsystem

Shallow embedding of the core of the `byteside` repository:

* `src/plugins/state.ts` — the in-memory state store (`getState`, `setState`,
  `onStateChange`, `notifyListeners`, `VALID_STATES`, `isValidState`);
* `src/routes/state.post.ts` — the POST /state update ingress;
* `src/routes/_ws.ts` — the WebSocket transport gateway (`broadcast`,
  `open`/`close`/`error` handlers, the module-level `onStateChange` listener);
* `src/src/terminal/renderer.ts` — the terminal animation loop
  (`setState`, message handler, `advanceFrame`, `renderCurrentFrame`, `stop`);
* `src/src/terminal/ascii-loader.ts` — `loadStateFrames` / `preloadAllFrames`.

Timestamps (`Date.now()`) are modelled as an explicit `now : Nat` argument.
Listener callbacks and peer sends can throw in JS; their behaviour is
modelled by an environment function `behav / sendFails : Nat → Bool`
(`true` = the call throws).  Because every call site in the source wraps the
call in `try { … } catch { /* log */ }`, an iteration that throws does not
abort the surrounding loop, so the loops are embedded as total maps that
record, per call, whether it threw.
-/

namespace Byteside

/-- Association-list lookup, modelling JS `Map.get` / object indexing
(`stateFrames.get(k)`, `manifest.states[k]`). -/
def mlookup {β : Type} (k : String) : List (String × β) → Option β
  | [] => none
  | (k', v) :: rest => if k' = k then some v else mlookup k rest

/-- JS `Set.add`: appends the element iff it is not already a member
(insertion-ordered set semantics). -/
def setAdd (x : Nat) (xs : List Nat) : List Nat :=
  if x ∈ xs then xs else xs ++ [x]

/-- JS `Set.delete`: removes the element (a no-op when absent). -/
def setDelete (x : Nat) (xs : List Nat) : List Nat :=
  xs.filter (fun y => y ≠ x)

/-! ## State store (`src/plugins/state.ts`) -/

/-- The mutable module state of `src/plugins/state.ts`:
`currentState`, `stateTimestamp` and the listener `Set`.
Listeners are identified by `Nat` ids; the `Set` is an insertion-ordered
duplicate-free list. -/
structure StoreState where
  currentState : String
  stateTimestamp : Nat
  listeners : List Nat
deriving DecidableEq, Repr

/-- `StateResponse` from `src/src/types.ts`: the record returned by `getState`. -/
structure StateResponse where
  state : String
  timestamp : Nat
deriving DecidableEq, Repr

/-- `getState()` — returns the current state and timestamp. -/
def getState (s : StoreState) : StateResponse :=
  { state := s.currentState, timestamp := s.stateTimestamp }

/-- One listener invocation performed by `notifyListeners`: which listener
was called, with which arguments, and whether the callback threw
(the `try/catch` around `listener(currentState, stateTimestamp)` logs and
continues when it does). -/
structure Invocation where
  listener : Nat
  state : String
  timestamp : Nat
  threw : Bool
deriving DecidableEq, Repr

/-- `notifyListeners()` — iterates the listener set in insertion order,
calling each listener with `(currentState, stateTimestamp)`.  Each call is
wrapped in `try/catch`, so a throwing listener is recorded (`threw = true`)
and the loop continues; nothing escapes. -/
def notifyListeners (behav : Nat → Bool) (s : StoreState) : List Invocation :=
  s.listeners.map fun l =>
    { listener := l, state := s.currentState, timestamp := s.stateTimestamp, threw := behav l }

/-- The result of `setState`: the returned previous state, the new module
state, and the listener invocations performed before returning. -/
structure SetStateResult where
  previous : String
  store : StoreState
  invocations : List Invocation
deriving DecidableEq, Repr

/-- `setState(newState)` — saves `previous := currentState`, overwrites
`currentState` and `stateTimestamp := Date.now()` (the `now` argument),
runs `notifyListeners()`, and returns `previous`. -/
def setState (behav : Nat → Bool) (now : Nat) (newState : String) (s : StoreState) :
    SetStateResult :=
  let previous := s.currentState
  let s1 : StoreState :=
    { currentState := newState, stateTimestamp := now, listeners := s.listeners }
  { previous := previous, store := s1, invocations := notifyListeners behav s1 }

/-- `onStateChange(listener)` — adds the listener to the `Set`. -/
def onStateChange (l : Nat) (s : StoreState) : StoreState :=
  { s with listeners := setAdd l s.listeners }

/-- The unsubscribe closure returned by `onStateChange`:
`() => { listeners.delete(listener) }`. -/
def unsubscribe (l : Nat) (s : StoreState) : StoreState :=
  { s with listeners := setDelete l s.listeners }

/-- A sequence of `setState` calls `(now, label)`, returning the final store
and the concatenated listener invocations of all the calls. -/
def runWrites (behav : Nat → Bool) : List (Nat × String) → StoreState →
    StoreState × List Invocation
  | [], s => (s, [])
  | (now, lbl) :: ws, s =>
    let r := setState behav now lbl s
    let rest := runWrites behav ws r.store
    (rest.1, r.invocations ++ rest.2)

/-- `VALID_STATES` from `src/plugins/state.ts`. -/
def VALID_STATES : List String :=
  ["idle", "thinking", "writing", "bash", "error", "success", "waiting"]

/-- `isValidState(state)` — `typeof state === "string" && VALID_STATES.includes(state)`.
`none` covers both a missing field and a non-string value (the `typeof`
check fails identically for both). -/
def isValidState : Option String → Bool
  | none => false
  | some s => VALID_STATES.contains s

/-! ## Update ingress (`src/routes/state.post.ts`) -/

/-- The JSON response of POST /state: either
`{ok: true, state, previous}` or `{ok: false, error, validStates}`. -/
inductive PostResponse
  | ok (state : String) (previous : String)
  | err (error : String) (validStates : List String)
deriving DecidableEq, Repr

/-- The error string built by the handler:
`` `Invalid state. Must be one of: ${VALID_STATES.join(", ")}` ``. -/
def invalidStateMessage : String :=
  "Invalid state. Must be one of: " ++ String.intercalate ", " VALID_STATES

/-- The POST /state handler.  The request body is
`Option (Option String)`: the outer `Option` is `!body` (missing /
unparseable body), the inner is the `state` field (`none` when absent or
not a string).  Returns `(HTTP status, response, new store)`. -/
def statePostHandler (behav : Nat → Bool) (now : Nat)
    (body : Option (Option String)) (s : StoreState) :
    Nat × PostResponse × StoreState :=
  match body with
  | none => (400, PostResponse.err invalidStateMessage VALID_STATES, s)
  | some stField =>
    match stField with
    | none => (400, PostResponse.err invalidStateMessage VALID_STATES, s)
    | some lbl =>
      if isValidState (some lbl) then
        let r := setState behav now lbl s
        (200, PostResponse.ok lbl r.previous, r.store)
      else
        (400, PostResponse.err invalidStateMessage VALID_STATES, s)

/-! ## Transport gateway (`src/routes/_ws.ts`) -/

/-- Server → client messages: `WsWelcomeMessage`, `WsStateMessage`,
`WsPongMessage` from `src/src/types.ts`. -/
inductive WsMessage
  | welcome (state : String) (timestamp : Nat)
  | state (state : String) (timestamp : Nat)
  | pong
deriving DecidableEq, Repr

/-- One `peer.send(data)` attempt: which peer, which message, and whether
the send threw. -/
structure SendAttempt where
  peer : Nat
  message : WsMessage
  threw : Bool
deriving DecidableEq, Repr

/-- The module-level `const peers = new Set<Peer>()` connection registry;
peers are identified by `Nat` ids. -/
structure GatewayState where
  peers : List Nat
deriving DecidableEq, Repr

/-- `broadcast(message)` — iterates the peer set, sending the serialized
message to each peer inside `try { peer.send(data) } catch (err) {
console.error(…) }`.  The catch only logs: it does NOT remove the peer
from the registry, and the loop continues with the remaining peers.
Returns the (unchanged) registry and the list of send attempts. -/
def broadcast (sendFails : Nat → Bool) (msg : WsMessage) (g : GatewayState) :
    GatewayState × List SendAttempt :=
  (g, g.peers.map fun p => { peer := p, message := msg, threw := sendFails p })

/-- The listener registered at module load by
`onStateChange((state, timestamp) => { … broadcast(message) })`:
builds a `state` message and broadcasts it. -/
def wsStateListener (sendFails : Nat → Bool) (st : String) (ts : Nat)
    (g : GatewayState) : GatewayState × List SendAttempt :=
  broadcast sendFails (WsMessage.state st ts) g

/-- The `open(peer)` handler — adds the peer to the registry, reads
`getState()` and sends a single `welcome` message carrying its fields. -/
def openHandler (sendFails : Nat → Bool) (p : Nat) (store : StoreState)
    (g : GatewayState) : GatewayState × List SendAttempt :=
  let g' : GatewayState := { peers := setAdd p g.peers }
  let resp := getState store
  (g', [{ peer := p, message := WsMessage.welcome resp.state resp.timestamp,
          threw := sendFails p }])

/-- The `close(peer)` handler — `peers.delete(peer)`. -/
def closeHandler (p : Nat) (g : GatewayState) : GatewayState :=
  { peers := setDelete p g.peers }

/-- The `error(peer, err)` handler — logs and `peers.delete(peer)`. -/
def errorHandler (p : Nat) (g : GatewayState) : GatewayState :=
  { peers := setDelete p g.peers }

/-! ## Terminal frame loading (`src/src/terminal/ascii-loader.ts`) -/

/-- `TerminalStateConfig` from `src/src/manifest.ts`: `frames?: string[]`
and `image?: string`. -/
structure TerminalStateConfig where
  frames : Option (List String)
  image : Option String
deriving DecidableEq, Repr

/-- `StateFrames` from `src/src/terminal/types.ts`. -/
structure StateFrames where
  frames : List String
  isImage : Bool
deriving DecidableEq, Repr

/-- JS truthiness of an optional string (`undefined` and `""` are falsy). -/
def truthyStr : Option String → Bool
  | none => false
  | some s => s ≠ ""

/-- JS truthiness of an optional number (`undefined` and `0` are falsy). -/
def truthyNum : Option Nat → Bool
  | none => false
  | some n => n ≠ 0

/-- `loadStateFrames(stateConfig, avatarDir, mode)`.  `readFrame` models
reading a frame file from disk.  Note `stateConfig.frames` is tested for
truthiness: an array (even `[]`) is truthy, so a declared empty `frames`
list yields an empty frame list; the final fallback is the single empty
frame `[""]`. -/
def loadStateFrames (readFrame : String → String) (cfg : TerminalStateConfig)
    (avatarDir : String) (mode : String) : StateFrames :=
  match mode, cfg.frames with
  | "ascii", some fs => { frames := fs.map readFrame, isImage := false }
  | _, _ =>
    match mode, cfg.image with
    | "image", some img =>
      { frames := [avatarDir ++ "/" ++ img], isImage := true }
    | _, _ => { frames := [""], isImage := false }

/-- `preloadAllFrames(terminalConfig, avatarDir)` — loads frames for every
entry of `terminalConfig.states` into a map keyed by state name. -/
def preloadAllFrames (readFrame : String → String)
    (states : List (String × TerminalStateConfig)) (avatarDir : String)
    (mode : String) : List (String × StateFrames) :=
  states.map fun e => (e.1, loadStateFrames readFrame e.2 avatarDir mode)

/-! ## Terminal animation loop (`src/src/terminal/renderer.ts`) -/

/-- `AvatarStateConfig` from `src/src/manifest.ts` (top-level
`manifest.states[name]`): `file`, optional `duration` and `transition_to`.
The renderer reads `duration`/`transition_to` from here. -/
structure AvatarStateConfig where
  file : String
  duration : Option Nat
  transition_to : Option String
deriving DecidableEq, Repr

/-- A live `setTimeout` auto-transition timer: its JS timer id, its delay
and the state it will transition to when it fires. -/
structure TimerEntry where
  id : Nat
  delay : Nat
  target : String
deriving DecidableEq, Repr

/-- The mutable fields of `TerminalRenderer` that the animation-loop claims
are about.  `transitionTimeoutId` is the tracked handle
(`this.transitionTimeoutId`); `liveTimers` is the set of armed-and-not-yet
fired/cancelled timers of the runtime (so "at most one pending timer" is a
provable property, not a typing artifact); `nextTimerId` generates fresh
timer ids. -/
structure RendererState where
  manifestStates : List (String × AvatarStateConfig)
  stateFrames : List (String × StateFrames)
  currentState : String
  frameIndex : Nat
  transitionTimeoutId : Option Nat
  liveTimers : List TimerEntry
  nextTimerId : Nat
deriving DecidableEq, Repr

/-- `clearTimeout(this.transitionTimeoutId); this.transitionTimeoutId = null`
guarded by `if (this.transitionTimeoutId)` — cancels the tracked live
timer, if any. -/
def clearTransition (r : RendererState) : RendererState :=
  match r.transitionTimeoutId with
  | none => r
  | some tid =>
    { r with liveTimers := r.liveTimers.filter (fun t => t.id ≠ tid),
             transitionTimeoutId := none }

/-- `this.transitionTimeoutId = setTimeout(() => this.setState(target), d)` —
arms a fresh one-shot timer and tracks its id. -/
def armTransition (d : Nat) (target : String) (r : RendererState) : RendererState :=
  { r with liveTimers := r.liveTimers ++ [{ id := r.nextTimerId, delay := d, target := target }],
           transitionTimeoutId := some r.nextTimerId,
           nextTimerId := r.nextTimerId + 1 }

/-- The auto-transition check of `TerminalRenderer.setState`: given
`stateConfig = manifest.states[state]`, arm the one-shot timer when the
config exists and declares truthy `duration` and `transition_to`
(`stateConfig?.duration && stateConfig?.transition_to`). -/
def maybeArmTransition (cfgOpt : Option AvatarStateConfig) (r : RendererState) :
    RendererState :=
  match cfgOpt with
  | some cfg =>
    if truthyNum cfg.duration ∧ truthyStr cfg.transition_to then
      armTransition (cfg.duration.getD 0) (cfg.transition_to.getD "") r
    else r
  | none => r

/-- `TerminalRenderer.setState(state)` — only acts when the state differs
from `currentState` AND `stateFrames.has(state)`; then clears any pending
transition, switches `currentState`, resets `frameIndex` to 0, and — when
`manifest.states[state]` declares truthy `duration` and `transition_to` —
arms the auto-transition timer. -/
def rSetState (st : String) (r : RendererState) : RendererState :=
  if st ≠ r.currentState ∧ (mlookup st r.stateFrames).isSome then
    maybeArmTransition (mlookup st r.manifestStates)
      { clearTransition r with currentState := st, frameIndex := 0 }
  else r

/-- An inbound WebSocket message as parsed by the renderer's `message`
handler (`parsed.type`, `parsed.state`). -/
structure WsIncoming where
  type : String
  state : Option String
deriving DecidableEq, Repr

/-- The `message` handler installed by `connectWebSocket`:
`if ((parsed.type === "state" || parsed.type === "welcome") && parsed.state)
   this.setState(parsed.state)`. -/
def rOnMessage (m : WsIncoming) (r : RendererState) : RendererState :=
  if (m.type = "state" ∨ m.type = "welcome") ∧ truthyStr m.state then
    rSetState (m.state.getD "") r
  else r

/-- `advanceFrame()` — `frameIndex = (frameIndex + 1) % frames.length`,
guarded by the state having loaded, non-empty frames. -/
def advanceFrame (r : RendererState) : RendererState :=
  match mlookup r.currentState r.stateFrames with
  | none => r
  | some sd =>
    if sd.frames.length = 0 then r
    else { r with frameIndex := (r.frameIndex + 1) % sd.frames.length }

/-- `renderCurrentFrame()` — returns the frame it renders
(`stateData.frames[this.frameIndex]`), or `none` when it bails out
(no loaded state, empty frame list, or index out of bounds —
`if (!frame) return`).  It mutates no renderer field. -/
def renderCurrentFrame (r : RendererState) : Option String :=
  match mlookup r.currentState r.stateFrames with
  | none => none
  | some sd =>
    if sd.frames.length = 0 then none
    else sd.frames.get? r.frameIndex

/-- The timer-relevant effect of `stop()`: `clearTimeout` of any pending
auto-transition (the interval/WebSocket/terminal cleanup does not touch
`currentState`, `frameIndex` or the timer fields beyond this). -/
def rStop (r : RendererState) : RendererState :=
  clearTransition r

/-- Firing a live timer `e`: the runtime consumes the one-shot timer and
runs its callback `() => this.setState(e.target)`.  The stale
`transitionTimeoutId` is left as-is (as in JS, where the fired timer's id
remains stored until `setState` nulls it). -/
def fireTimer (e : TimerEntry) (r : RendererState) : RendererState :=
  rSetState e.target
    { r with liveTimers := r.liveTimers.filter (fun t => t.id ≠ e.id) }

/-- The renderer state right after `init()`/`start()`: frames preloaded,
`currentState = "idle"`, `frameIndex = 0`, no timers. -/
def initRenderer (ms : List (String × AvatarStateConfig))
    (sf : List (String × StateFrames)) : RendererState :=
  { manifestStates := ms, stateFrames := sf, currentState := "idle",
    frameIndex := 0, transitionTimeoutId := none, liveTimers := [],
    nextTimerId := 0 }

/-- One scheduler event of the animation loop: an inbound WebSocket
message, a render tick (render + frame advance), a live auto-transition
timer firing, or `stop()`. -/
inductive RStep : RendererState → RendererState → Prop
  | msg (m : WsIncoming) (r : RendererState) : RStep r (rOnMessage m r)
  | tick (r : RendererState) : RStep r (advanceFrame r)
  | fire (e : TimerEntry) (r : RendererState) (he : e ∈ r.liveTimers) :
      RStep r (fireTimer e r)
  | stop (r : RendererState) : RStep r (rStop r)

/-- Reachability of a renderer state from the initialized renderer under
any interleaving of scheduler events. -/
def RReachable (ms : List (String × AvatarStateConfig))
    (sf : List (String × StateFrames)) (r : RendererState) : Prop :=
  Relation.ReflTransGen RStep (initRenderer ms sf) r

/-- At most one auto-transition timer is pending, and a pending timer is
exactly the one tracked by `transitionTimeoutId`. -/
def TimerInv (r : RendererState) : Prop :=
  r.liveTimers = [] ∨
    ∃ e : TimerEntry, r.liveTimers = [e] ∧ r.transitionTimeoutId = some e.id

/-- `frameIndex` is in bounds for the current state's frame list: strictly
below the frame count when the current state has loaded, non-empty
frames, and `0` when the state is absent from the frame map or its frame
list is empty. -/
def FrameInv (r : RendererState) : Prop :=
  (∀ sd, mlookup r.currentState r.stateFrames = some sd →
    (sd.frames.length = 0 → r.frameIndex = 0) ∧
    (sd.frames.length ≠ 0 → r.frameIndex < sd.frames.length)) ∧
  (mlookup r.currentState r.stateFrames = none → r.frameIndex = 0)

/-- Example manifest: `success` declares `duration: 2000` and
`transition_to: "idle"` (end-to-end scenario 3). -/
def egManifest : List (String × AvatarStateConfig) :=
  [("success", AvatarStateConfig.mk "success.webm" (some 2000) (some "idle"))]

/-- Example preloaded frames for `idle` and `success`. -/
def egFrames : List (String × StateFrames) :=
  [("idle", StateFrames.mk ["i1", "i2"] false),
   ("success", StateFrames.mk ["s1"] false)]

/-- The renderer after receiving a `state: success` message from the
initialized renderer. -/
def egReached : RendererState :=
  rOnMessage (WsIncoming.mk "state" (some "success")) (initRenderer egManifest egFrames)

/-- Manifest where `success` declares `duration: 2000` and
`transition_to: "ghost"`; `ghost` is itself a defined manifest state (as
`validateManifest` requires of every `transition_to` target) but nothing
requires it to appear in `terminal.states`. -/
def ghostManifest : List (String × AvatarStateConfig) :=
  [("success", AvatarStateConfig.mk "success.webm" (some 2000) (some "ghost")),
   ("ghost", AvatarStateConfig.mk "ghost.webm" none none)]

/-- Terminal frames covering only `idle` and `success` — `ghost` has no
terminal frames (the terminal frame set may cover fewer states than the
manifest's state set). -/
def ghostFrames : List (String × StateFrames) :=
  [("idle", StateFrames.mk ["i1"] false), ("success", StateFrames.mk ["s1"] false)]

/-- The renderer after entering `success` from initialization: the
auto-transition timer targeting `ghost` is armed. -/
def ghostArmed : RendererState :=
  rOnMessage (WsIncoming.mk "state" (some "success"))
    (initRenderer ghostManifest ghostFrames)

/-- A frame map actually produced by `preloadAllFrames` from a terminal
manifest whose `writing` entry declares `frames: []` — accepted by
`parseManifest`, which checks only that `frames` is an array of strings,
never that it is non-empty. -/
def emptyFramesMap : List (String × StateFrames) :=
  preloadAllFrames (fun p => p) [("writing", TerminalStateConfig.mk (some []) none)]
    "/av" "ascii"

/-- The renderer after receiving a `state: writing` message when `writing`
has an empty (but present) frame list. -/
def emptyFramesReached : RendererState :=
  rOnMessage (WsIncoming.mk "state" (some "writing")) (initRenderer [] emptyFramesMap)

/-! ## Store theorems -/

/-- C2: for every label and every store state (hence after every prior
sequence of writes), `setState` returns the state current immediately
before the call, and `getState` afterwards returns the new label with
timestamp `now`; under the wall-clock monotonicity assumption
(`Date.now()` does not decrease, modelled by `hclock`), that timestamp is
≥ the timestamp observed via `getState` before the call. -/
theorem setState_previous_and_getState (behav : Nat → Bool) (now : Nat)
    (s : StoreState) (lbl : String)
    (hclock : (getState s).timestamp ≤ now) :
    (setState behav now lbl s).previous = (getState s).state ∧
    getState (setState behav now lbl s).store = { state := lbl, timestamp := now } ∧
    (getState s).timestamp ≤ (getState (setState behav now lbl s).store).timestamp := by
  exact ⟨rfl, rfl, hclock⟩

/-- Witness for C2 at a concrete store and write. -/
theorem setState_previous_and_getState_witness :
    (getState (StoreState.mk "idle" 3 [1, 2])).timestamp ≤ 7 ∧
    (setState (fun _ => false) 7 "writing" (StoreState.mk "idle" 3 [1, 2])).previous = "idle" ∧
    getState (setState (fun _ => false) 7 "writing" (StoreState.mk "idle" 3 [1, 2])).store =
      { state := "writing", timestamp := 7 } := by
  have h := setState_previous_and_getState (fun _ => false) 7
    (StoreState.mk "idle" 3 [1, 2]) "writing" (by decide)
  exact ⟨by decide, h.1, h.2.1⟩

/-- C7: a throwing listener is isolated: for any behaviour of the
registered listeners (`behav l = true` means listener `l` throws),
`setState` still invokes every registered listener exactly once, in
registration order, with the new state and timestamp, records which calls
threw, and itself completes normally returning the previous state — the
per-call `try/catch` keeps the error from escaping. -/
theorem setState_listener_isolation (behav : Nat → Bool) (now : Nat)
    (lbl : String) (s : StoreState) :
    ((setState behav now lbl s).invocations.map Invocation.listener) = s.listeners ∧
    (setState behav now lbl s).previous = s.currentState ∧
    (∀ inv ∈ (setState behav now lbl s).invocations,
      inv.state = lbl ∧ inv.timestamp = now ∧ inv.threw = behav inv.listener) := by
  refine ⟨?_, rfl, ?_⟩
  · simp only [setState, notifyListeners, List.map_map]
    exact List.map_id s.listeners
  · intro inv hinv
    simp only [setState, notifyListeners, List.mem_map] at hinv
    obtain ⟨l, _, rfl⟩ := hinv
    exact ⟨rfl, rfl, rfl⟩

/-- Witness for C7: listener 2 throws, yet all of 1, 2, 3 are invoked and
`setState` returns the previous state. -/
theorem setState_listener_isolation_witness :
    ((setState (fun l => l == 2) 7 "bash" (StoreState.mk "idle" 3 [1, 2, 3])).invocations.map
      Invocation.listener) = [1, 2, 3] ∧
    (setState (fun l => l == 2) 7 "bash" (StoreState.mk "idle" 3 [1, 2, 3])).previous = "idle" ∧
    (Invocation.mk 3 "bash" 7 false).state = "bash" := by
  have h := setState_listener_isolation (fun l => l == 2) 7 "bash"
    (StoreState.mk "idle" 3 [1, 2, 3])
  exact ⟨h.1, h.2.1, (h.2.2 (Invocation.mk 3 "bash" 7 false) (by decide)).1⟩

/-- Every listener invoked during a sequence of writes is a member of the
store's (write-invariant) listener set. -/
theorem runWrites_invocations_mem (behav : Nat → Bool) (ws : List (Nat × String))
    (s : StoreState) :
    ∀ inv ∈ (runWrites behav ws s).2, inv.listener ∈ s.listeners := by
  induction ws generalizing s with
  | nil => intro inv hinv; simp [runWrites] at hinv
  | cons w ws ih =>
    obtain ⟨now, lbl⟩ := w
    intro inv hinv
    simp only [runWrites, List.mem_append] at hinv
    rcases hinv with h | h
    · simp only [setState, notifyListeners, List.mem_map] at h
      obtain ⟨l, hl, rfl⟩ := h
      exact hl
    · exact ih (setState behav now lbl s).store inv h

/-- `Set.delete` twice is the same as once. -/
theorem setDelete_idem (x : Nat) (xs : List Nat) :
    setDelete x (setDelete x xs) = setDelete x xs := by
  induction xs with
  | nil => rfl
  | cons y ys ih =>
    unfold setDelete at ih ⊢
    by_cases h : y = x
    · simp [List.filter_cons, h, ih]
    · simp [List.filter_cons, h, ih]

/-- C9: after `unsubscribe`, the removed listener is invoked zero further
times over any subsequent sequence of writes; unsubscribing again is a
no-op (idempotent), and every other listener's membership is unaffected. -/
theorem unsubscribe_no_further_invocations (l : Nat) (behav : Nat → Bool)
    (s : StoreState) (ws : List (Nat × String)) :
    (∀ inv ∈ (runWrites behav ws (unsubscribe l s)).2, inv.listener ≠ l) ∧
    unsubscribe l (unsubscribe l s) = unsubscribe l s ∧
    (∀ m, m ≠ l → (m ∈ (unsubscribe l s).listeners ↔ m ∈ s.listeners)) := by
  refine ⟨?_, ?_, ?_⟩
  · intro inv hinv
    have h := runWrites_invocations_mem behav ws (unsubscribe l s) inv hinv
    simp only [unsubscribe, setDelete, List.mem_filter, decide_eq_true_eq] at h
    exact h.2
  · show ({ unsubscribe l s with
        listeners := setDelete l (unsubscribe l s).listeners } : StoreState) = _
    simp [unsubscribe, setDelete_idem]
  · intro m hm
    simp [unsubscribe, setDelete, List.mem_filter, hm]

/-- Witness for C9 at a concrete store, unsubscribing listener 2 and then
performing one write. -/
theorem unsubscribe_no_further_invocations_witness :
    (Invocation.mk 1 "writing" 5 false).listener ≠ 2 ∧
    unsubscribe 2 (unsubscribe 2 (StoreState.mk "idle" 3 [1, 2, 3])) =
      unsubscribe 2 (StoreState.mk "idle" 3 [1, 2, 3]) ∧
    (1 ∈ (unsubscribe 2 (StoreState.mk "idle" 3 [1, 2, 3])).listeners ↔
      1 ∈ (StoreState.mk "idle" 3 [1, 2, 3]).listeners) := by
  have h := unsubscribe_no_further_invocations 2 (fun _ => false)
    (StoreState.mk "idle" 3 [1, 2, 3]) [(5, "writing")]
  exact ⟨h.1 (Invocation.mk 1 "writing" 5 false) (by decide), h.2.1, h.2.2 1 (by decide)⟩

/-- C1: the POST /state handler mutates the store iff the candidate label
is valid.  For every valid label it calls `setState` and returns 200 with
`{ok, state, previous}` (previous = the state current before the call)
and the store now carrying the new label; for every missing body, missing
or non-string `state` field, or label outside `VALID_STATES`, it returns
400 with an error listing the full legal-state set and the store is
returned unchanged (no side effects). -/
theorem statePost_valid_or_rejected (behav : Nat → Bool) (now : Nat)
    (body : Option (Option String)) (s : StoreState) :
    (∀ lbl, body = some (some lbl) → isValidState (some lbl) = true →
      statePostHandler behav now body s =
        (200, PostResponse.ok lbl s.currentState,
          { currentState := lbl, stateTimestamp := now, listeners := s.listeners })) ∧
    (isValidState (body.getD none) = false →
      statePostHandler behav now body s =
        (400, PostResponse.err invalidStateMessage VALID_STATES, s)) := by
  constructor
  · intro lbl hbody hval
    subst hbody
    simp [statePostHandler, hval, setState]
  · intro hinv
    match body with
    | none => rfl
    | some none => rfl
    | some (some lbl) =>
      simp only [Option.getD_some] at hinv
      simp [statePostHandler, hinv]

/-- Witness for C1: a valid and an invalid update at a concrete store. -/
theorem statePost_valid_or_rejected_witness :
    statePostHandler (fun _ => false) 5 (some (some "writing")) (StoreState.mk "idle" 3 []) =
      (200, PostResponse.ok "writing" "idle", StoreState.mk "writing" 5 []) ∧
    statePostHandler (fun _ => false) 5 (some (some "bogus")) (StoreState.mk "idle" 3 []) =
      (400, PostResponse.err invalidStateMessage VALID_STATES, StoreState.mk "idle" 3 []) := by
  refine ⟨?_, ?_⟩
  · exact (statePost_valid_or_rejected (fun _ => false) 5 (some (some "writing"))
      (StoreState.mk "idle" 3 [])).1 "writing" rfl (by decide)
  · exact (statePost_valid_or_rejected (fun _ => false) 5 (some (some "bogus"))
      (StoreState.mk "idle" 3 [])).2 (by decide)

/-! ## Gateway theorems -/

/-- C5: one accepted write makes the gateway's registered listener send to
every peer currently in the (duplicate-free) registry exactly one `state`
message carrying the new state; no unregistered peer is sent anything; a
peer whose send does not throw gets a delivered (non-throwing) attempt no
matter which other peers threw. -/
theorem write_broadcast_exactly_once (sendFails : Nat → Bool) (st : String)
    (ts : Nat) (g : GatewayState) (hnd : g.peers.Nodup) :
    ((wsStateListener sendFails st ts g).2.map SendAttempt.peer) = g.peers ∧
    (∀ p ∈ g.peers,
      ((wsStateListener sendFails st ts g).2.map SendAttempt.peer).count p = 1) ∧
    (∀ p, p ∉ g.peers →
      ((wsStateListener sendFails st ts g).2.map SendAttempt.peer).count p = 0) ∧
    (∀ a ∈ (wsStateListener sendFails st ts g).2,
      a.message = WsMessage.state st ts ∧ a.threw = sendFails a.peer) ∧
    (∀ p ∈ g.peers, sendFails p = false →
      SendAttempt.mk p (WsMessage.state st ts) false ∈ (wsStateListener sendFails st ts g).2) := by
  have hpeers : ((wsStateListener sendFails st ts g).2.map SendAttempt.peer) = g.peers := by
    simp only [wsStateListener, broadcast, List.map_map]
    exact List.map_id g.peers
  refine ⟨hpeers, ?_, ?_, ?_, ?_⟩
  · intro p hp
    rw [hpeers]
    exact List.count_eq_one_of_mem hnd hp
  · intro p hp
    rw [hpeers]
    exact List.count_eq_zero.mpr hp
  · intro a ha
    simp only [wsStateListener, broadcast, List.mem_map] at ha
    obtain ⟨q, _, rfl⟩ := ha
    exact ⟨rfl, rfl⟩
  · intro p hp hok
    simp only [wsStateListener, broadcast, List.mem_map]
    exact ⟨p, hp, by rw [hok]⟩

/-- Witness for C5: two peers, the first throwing. -/
theorem write_broadcast_exactly_once_witness :
    ((wsStateListener (fun q => q == 1) "writing" 9 (GatewayState.mk [1, 2])).2.map
      SendAttempt.peer).count 2 = 1 ∧
    SendAttempt.mk 2 (WsMessage.state "writing" 9) false ∈
      (wsStateListener (fun q => q == 1) "writing" 9 (GatewayState.mk [1, 2])).2 := by
  have h := write_broadcast_exactly_once (fun q => q == 1) "writing" 9
    (GatewayState.mk [1, 2]) (by decide)
  exact ⟨h.2.1 2 (by decide), h.2.2.2.2 2 (by decide) (by decide)⟩

/-- C6: for every new connection, after any number of prior writes, the
`open` handler registers the peer and sends exactly one message, a
`welcome` whose state and timestamp are exactly the record `getState()`
returns at that instant. -/
theorem open_sends_single_welcome (sendFails : Nat → Bool) (p : Nat)
    (behav : Nat → Bool) (ws : List (Nat × String)) (s0 : StoreState)
    (g : GatewayState) :
    ((openHandler sendFails p (runWrites behav ws s0).1 g).2).length = 1 ∧
    (openHandler sendFails p (runWrites behav ws s0).1 g).2 =
      [SendAttempt.mk p
        (WsMessage.welcome (getState (runWrites behav ws s0).1).state
          (getState (runWrites behav ws s0).1).timestamp) (sendFails p)] ∧
    p ∈ (openHandler sendFails p (runWrites behav ws s0).1 g).1.peers := by
  refine ⟨rfl, rfl, ?_⟩
  simp only [openHandler, setAdd]
  by_cases h : p ∈ g.peers
  · simp [h]
  · simp [h]

/-- C4 counterexample: with peers 1 and 2 registered and peer 1's send
throwing, `broadcast` records the failure for peer 1 but leaves peer 1 in
the registry — the failing connection is NOT removed by the send-failure
path, refuting the claim as stated. -/
theorem broadcast_failure_not_removed_cex :
    ((broadcast (fun q => q == 1) (WsMessage.state "error" 5)
        (GatewayState.mk [1, 2])).2.filter (fun a => a.threw)).map SendAttempt.peer = [1] ∧
    (broadcast (fun q => q == 1) (WsMessage.state "error" 5)
        (GatewayState.mk [1, 2])).1.peers = [1, 2] ∧
    1 ∈ (broadcast (fun q => q == 1) (WsMessage.state "error" 5)
        (GatewayState.mk [1, 2])).1.peers := by
  decide

/-- C4 amended: a send failure during broadcast is caught and logged, the
loop continues — every registered peer is still attempted — but the
registry is left unchanged (the failing connection is removed only by the
separate `close`/`error` handlers); registry removal is idempotent and
leaves every other connection's membership unaffected. -/
theorem broadcast_failure_logged_registry_unchanged (sendFails : Nat → Bool)
    (msg : WsMessage) (g : GatewayState) :
    (broadcast sendFails msg g).1 = g ∧
    ((broadcast sendFails msg g).2.map SendAttempt.peer) = g.peers ∧
    (∀ p, closeHandler p (closeHandler p g) = closeHandler p g) ∧
    (∀ p q, q ≠ p → (q ∈ (closeHandler p g).peers ↔ q ∈ g.peers)) := by
  refine ⟨rfl, ?_, ?_, ?_⟩
  · simp only [broadcast, List.map_map]
    exact List.map_id g.peers
  · intro p
    show GatewayState.mk (setDelete p (closeHandler p g).peers) = _
    simp [closeHandler, setDelete_idem]
  · intro p q hq
    simp [closeHandler, setDelete, List.mem_filter, hq]

/-- Witness for the amended C4 at a concrete registry. -/
theorem broadcast_failure_logged_registry_unchanged_witness :
    (broadcast (fun q => q == 1) (WsMessage.state "error" 5)
      (GatewayState.mk [1, 2])).1 = GatewayState.mk [1, 2] ∧
    closeHandler 1 (closeHandler 1 (GatewayState.mk [1, 2])) =
      closeHandler 1 (GatewayState.mk [1, 2]) ∧
    (2 ∈ (closeHandler 1 (GatewayState.mk [1, 2])).peers ↔
      2 ∈ (GatewayState.mk [1, 2]).peers) := by
  have h := broadcast_failure_logged_registry_unchanged (fun q => q == 1)
    (WsMessage.state "error" 5) (GatewayState.mk [1, 2])
  exact ⟨h.1, h.2.2.1 1, h.2.2.2 1 2 (by decide)⟩

/-! ## Renderer helper lemmas -/

/-- `clearTransition` touches only the timer fields. -/
theorem clearTransition_fields (r : RendererState) :
    (clearTransition r).currentState = r.currentState ∧
    (clearTransition r).frameIndex = r.frameIndex ∧
    (clearTransition r).stateFrames = r.stateFrames ∧
    (clearTransition r).manifestStates = r.manifestStates ∧
    (clearTransition r).nextTimerId = r.nextTimerId := by
  unfold clearTransition
  cases r.transitionTimeoutId <;> exact ⟨rfl, rfl, rfl, rfl, rfl⟩

/-- Under the single-timer invariant, clearing leaves no live timer. -/
theorem clearTransition_liveTimers (r : RendererState) (h : TimerInv r) :
    (clearTransition r).liveTimers = [] := by
  unfold clearTransition
  rcases h with h0 | ⟨e, hl, hid⟩
  · cases htid : r.transitionTimeoutId <;> simp [h0]
  · rw [hid, hl]
    simp

/-- Reducing `maybeArmTransition` at a missing manifest entry. -/
theorem maybeArmTransition_none (r : RendererState) :
    maybeArmTransition none r = r := rfl

/-- Reducing `maybeArmTransition` when the entry declares a truthy
duration and target. -/
theorem maybeArmTransition_some_arm (cfg : AvatarStateConfig) (r : RendererState)
    (hdt : (truthyNum cfg.duration = true) ∧ (truthyStr cfg.transition_to = true)) :
    maybeArmTransition (some cfg) r =
      armTransition (cfg.duration.getD 0) (cfg.transition_to.getD "") r := by
  show (if (truthyNum cfg.duration ∧ truthyStr cfg.transition_to) then
    armTransition (cfg.duration.getD 0) (cfg.transition_to.getD "") r else r) = _
  rw [if_pos hdt]

/-- Reducing `maybeArmTransition` when the entry does not declare both a
truthy duration and a truthy target. -/
theorem maybeArmTransition_some_skip (cfg : AvatarStateConfig) (r : RendererState)
    (hdt : ¬((truthyNum cfg.duration = true) ∧ (truthyStr cfg.transition_to = true))) :
    maybeArmTransition (some cfg) r = r := by
  show (if (truthyNum cfg.duration ∧ truthyStr cfg.transition_to) then
    armTransition (cfg.duration.getD 0) (cfg.transition_to.getD "") r else r) = _
  rw [if_neg hdt]

/-- `maybeArmTransition` touches only the timer fields. -/
theorem maybeArmTransition_fields (c : Option AvatarStateConfig) (r : RendererState) :
    (maybeArmTransition c r).currentState = r.currentState ∧
    (maybeArmTransition c r).frameIndex = r.frameIndex ∧
    (maybeArmTransition c r).stateFrames = r.stateFrames ∧
    (maybeArmTransition c r).manifestStates = r.manifestStates := by
  cases c with
  | none => rw [maybeArmTransition_none]; exact ⟨rfl, rfl, rfl, rfl⟩
  | some cfg =>
    by_cases hdt : (truthyNum cfg.duration = true) ∧ (truthyStr cfg.transition_to = true)
    · rw [maybeArmTransition_some_arm cfg r hdt]
      exact ⟨rfl, rfl, rfl, rfl⟩
    · rw [maybeArmTransition_some_skip cfg r hdt]
      exact ⟨rfl, rfl, rfl, rfl⟩

/-- A `setState` call that switches states sets `currentState` and resets
`frameIndex`, leaving the frame and manifest maps unchanged. -/
theorem rSetState_switch_fields (st : String) (r : RendererState)
    (hne : st ≠ r.currentState) (hsf : (mlookup st r.stateFrames).isSome = true) :
    (rSetState st r).currentState = st ∧ (rSetState st r).frameIndex = 0 ∧
    (rSetState st r).stateFrames = r.stateFrames ∧
    (rSetState st r).manifestStates = r.manifestStates := by
  have hcf := clearTransition_fields r
  have hma := maybeArmTransition_fields (mlookup st r.manifestStates)
    { clearTransition r with currentState := st, frameIndex := 0 }
  unfold rSetState
  rw [if_pos ⟨hne, hsf⟩]
  refine ⟨?_, ?_, ?_, ?_⟩
  · rw [hma.1]
  · rw [hma.2.1]
  · rw [hma.2.2.1]; exact hcf.2.2.1
  · rw [hma.2.2.2]; exact hcf.2.2.2.1

/-- A `setState` call that does not switch (same state, or state not in the
frame map) is a no-op. -/
theorem rSetState_no_switch (st : String) (r : RendererState)
    (h : ¬(st ≠ r.currentState ∧ (mlookup st r.stateFrames).isSome = true)) :
    rSetState st r = r := by
  unfold rSetState
  rw [if_neg h]

/-- Arming a fresh timer on a state with no live timers yields exactly one
live timer, which is the tracked one. -/
theorem timerInv_armTransition (d : Nat) (t : String) (r : RendererState)
    (h : r.liveTimers = []) : TimerInv (armTransition d t r) := by
  refine Or.inr ⟨TimerEntry.mk r.nextTimerId d t, ?_, rfl⟩
  show r.liveTimers ++ [_] = _
  rw [h]
  rfl

/-- The single-timer invariant is preserved by `setState`. -/
theorem timerInv_rSetState (st : String) (r : RendererState) (h : TimerInv r) :
    TimerInv (rSetState st r) := by
  by_cases hc : st ≠ r.currentState ∧ ((mlookup st r.stateFrames).isSome = true)
  · have hclear : (clearTransition r).liveTimers = [] := clearTransition_liveTimers r h
    unfold rSetState
    rw [if_pos hc]
    cases hms : mlookup st r.manifestStates with
    | none =>
      rw [maybeArmTransition_none]
      exact Or.inl hclear
    | some cfg =>
      by_cases hdt : (truthyNum cfg.duration = true) ∧ (truthyStr cfg.transition_to = true)
      · rw [maybeArmTransition_some_arm cfg _ hdt]
        exact timerInv_armTransition _ _ _ hclear
      · rw [maybeArmTransition_some_skip cfg _ hdt]
        exact Or.inl hclear
  · rw [rSetState_no_switch st r hc]
    exact h

/-- The single-timer invariant is preserved by the message handler. -/
theorem timerInv_rOnMessage (m : WsIncoming) (r : RendererState) (h : TimerInv r) :
    TimerInv (rOnMessage m r) := by
  unfold rOnMessage
  split
  · exact timerInv_rSetState _ r h
  · exact h

/-- The single-timer invariant is preserved by a render tick. -/
theorem timerInv_advanceFrame (r : RendererState) (h : TimerInv r) :
    TimerInv (advanceFrame r) := by
  unfold advanceFrame
  split
  · exact h
  · split
    · exact h
    · exact h

/-- The single-timer invariant is preserved by a live timer firing. -/
theorem timerInv_fireTimer (e : TimerEntry) (r : RendererState) (h : TimerInv r)
    (he : e ∈ r.liveTimers) : TimerInv (fireTimer e r) := by
  unfold fireTimer
  apply timerInv_rSetState
  rcases h with h0 | ⟨e', hl, hid⟩
  · rw [h0] at he; cases he
  · have hee : e = e' := by rw [hl] at he; simpa using he
    subst hee
    left
    show r.liveTimers.filter (fun t => t.id ≠ e.id) = []
    rw [hl]
    simp

/-- The single-timer invariant is preserved by `stop()`. -/
theorem timerInv_rStop (r : RendererState) (h : TimerInv r) : TimerInv (rStop r) := by
  exact Or.inl (clearTransition_liveTimers r h)

/-- Every reachable renderer state satisfies the single-timer invariant. -/
theorem reachable_timerInv (ms : List (String × AvatarStateConfig))
    (sf : List (String × StateFrames)) (r : RendererState)
    (h : RReachable ms sf r) : TimerInv r := by
  unfold RReachable at h
  induction h with
  | refl => exact Or.inl rfl
  | tail hsteps hstep ih =>
    cases hstep with
    | msg m => exact timerInv_rOnMessage m _ ih
    | tick => exact timerInv_advanceFrame _ ih
    | fire e rr he => exact timerInv_fireTimer e _ ih he
    | stop => exact timerInv_rStop _ ih

/-- Clearing after the one-shot timer has been consumed gives the same
state as clearing with the timer still live (the tracked id's filter is
idempotent). -/
theorem clearTransition_consumed (e : TimerEntry) (r : RendererState)
    (hid : r.transitionTimeoutId = some e.id) :
    clearTransition { r with liveTimers := r.liveTimers.filter (fun t => t.id ≠ e.id) } =
      clearTransition r := by
  unfold clearTransition
  simp only [hid]
  simp [List.filter_filter]

/-- A consumed timer's callback `setState(target)` computes the same
renderer state as an external `setState(target)` performed with the timer
still pending. -/
theorem fireTimer_eq_rSetState (e : TimerEntry) (r : RendererState)
    (hid : r.transitionTimeoutId = some e.id)
    (hne : e.target ≠ r.currentState)
    (hsf : (mlookup e.target r.stateFrames).isSome = true) :
    fireTimer e r = rSetState e.target r := by
  unfold fireTimer rSetState
  rw [if_pos ⟨hne, hsf⟩, if_pos ⟨hne, hsf⟩]
  rw [clearTransition_consumed e r hid]

/-- Firing the pending timer under the invariant equals an external push
of the target state. -/
theorem fireTimer_external (e : TimerEntry) (r : RendererState) (h : TimerInv r)
    (he : e ∈ r.liveTimers) (hne : e.target ≠ r.currentState)
    (hsf : (mlookup e.target r.stateFrames).isSome = true) :
    fireTimer e r = rSetState e.target r ∧
    (fireTimer e r).currentState = e.target ∧ (fireTimer e r).frameIndex = 0 := by
  rcases h with h0 | ⟨e', hl, hid⟩
  · rw [h0] at he; cases he
  · have hee : e = e' := by rw [hl] at he; simpa using he
    subst hee
    have heq := fireTimer_eq_rSetState e r hid hne hsf
    have hf := rSetState_switch_fields e.target r hne hsf
    exact ⟨heq, by rw [heq]; exact hf.1, by rw [heq]; exact hf.2.1⟩

/-- The frame-bounds invariant holds after `init()`. -/
theorem frameInv_init (ms : List (String × AvatarStateConfig))
    (sf : List (String × StateFrames)) : FrameInv (initRenderer ms sf) := by
  unfold FrameInv
  refine ⟨?_, ?_⟩
  · intro sd _
    refine ⟨fun _ => rfl, fun hlen => ?_⟩
    exact Nat.pos_of_ne_zero hlen
  · intro _
    rfl

/-- The frame-bounds invariant is preserved by `setState`. -/
theorem frameInv_rSetState (st : String) (r : RendererState) (h : FrameInv r) :
    FrameInv (rSetState st r) := by
  by_cases hc : st ≠ r.currentState ∧ ((mlookup st r.stateFrames).isSome = true)
  · have hf := rSetState_switch_fields st r hc.1 hc.2
    unfold FrameInv
    refine ⟨?_, ?_⟩
    · intro sd _
      refine ⟨fun _ => hf.2.1, fun hlen => ?_⟩
      rw [hf.2.1]
      exact Nat.pos_of_ne_zero hlen
    · intro _
      exact hf.2.1
  · rw [rSetState_no_switch st r hc]
    exact h

/-- The frame-bounds invariant is preserved by the message handler. -/
theorem frameInv_rOnMessage (m : WsIncoming) (r : RendererState) (h : FrameInv r) :
    FrameInv (rOnMessage m r) := by
  unfold rOnMessage
  split
  · exact frameInv_rSetState _ r h
  · exact h

/-- The frame-bounds invariant is preserved by a render tick. -/
theorem frameInv_advanceFrame (r : RendererState) (h : FrameInv r) :
    FrameInv (advanceFrame r) := by
  unfold advanceFrame
  split
  · exact h
  next sd hsd =>
    split
    · exact h
    next hlen =>
      unfold FrameInv
      refine ⟨?_, ?_⟩
      · intro sd' hsd'
        have hsd'' : mlookup r.currentState r.stateFrames = some sd' := hsd'
        rw [hsd] at hsd''
        cases hsd''
        refine ⟨fun h0 => absurd h0 hlen, fun _ => ?_⟩
        show (r.frameIndex + 1) % sd.frames.length < sd.frames.length
        exact Nat.mod_lt _ (Nat.pos_of_ne_zero hlen)
      · intro hnone
        have hnone' : mlookup r.currentState r.stateFrames = none := hnone
        rw [hsd] at hnone'
        cases hnone'

/-- The frame-bounds invariant is preserved by a timer firing. -/
theorem frameInv_fireTimer (e : TimerEntry) (r : RendererState) (h : FrameInv r) :
    FrameInv (fireTimer e r) := by
  unfold fireTimer
  apply frameInv_rSetState
  exact h

/-- The frame-bounds invariant is preserved by `clearTransition` (hence by
`stop()`). -/
theorem frameInv_clearTransition (r : RendererState) (h : FrameInv r) :
    FrameInv (clearTransition r) := by
  unfold clearTransition
  cases r.transitionTimeoutId with
  | none => exact h
  | some tid => exact h

/-- Every reachable renderer state satisfies the frame-bounds invariant. -/
theorem reachable_frameInv (ms : List (String × AvatarStateConfig))
    (sf : List (String × StateFrames)) (r : RendererState)
    (h : RReachable ms sf r) : FrameInv r := by
  unfold RReachable at h
  induction h with
  | refl => exact frameInv_init ms sf
  | tail hsteps hstep ih =>
    cases hstep with
    | msg m => exact frameInv_rOnMessage m _ ih
    | tick => exact frameInv_advanceFrame _ ih
    | fire e rr he => exact frameInv_fireTimer e _ ih
    | stop => exact frameInv_clearTransition _ ih

/-! ## Renderer claim theorems -/

/-- C3 counterexample: a `state` message carrying `writing`, which differs
from `currentState = "idle"` but is absent from the preloaded frame map,
leaves the renderer completely unchanged — the loop does NOT switch
`currentState` to the carried state, refuting the claim as stated. -/
theorem rOnMessage_missing_frames_cex :
    (rOnMessage (WsIncoming.mk "state" (some "writing"))
      (initRenderer [] [("idle", StateFrames.mk ["a"] false)])).currentState = "idle" ∧
    ¬ ("writing" = "idle") ∧
    rOnMessage (WsIncoming.mk "state" (some "writing"))
      (initRenderer [] [("idle", StateFrames.mk ["a"] false)]) =
      initRenderer [] [("idle", StateFrames.mk ["a"] false)] := by
  refine ⟨rfl, by decide, by decide⟩

/-- C3 amended: on a welcome or state message carrying a (non-empty) state
`s`, if `s` differs from `currentState` AND the preloaded frame map
contains `s`, the loop switches `currentState` to `s` and resets
`frameIndex` to 0; when `s` equals `currentState`, or when `s` is not in
the frame map, nothing changes. -/
theorem rOnMessage_switch_behaviour (m : WsIncoming) (r : RendererState)
    (s : String) (htype : m.type = "state" ∨ m.type = "welcome")
    (hst : m.state = some s) (hne : s ≠ "") :
    (s ≠ r.currentState → (mlookup s r.stateFrames).isSome = true →
      (rOnMessage m r).currentState = s ∧ (rOnMessage m r).frameIndex = 0) ∧
    (s = r.currentState → rOnMessage m r = r) ∧
    ((mlookup s r.stateFrames).isSome = false → rOnMessage m r = r) := by
  have hmsg : rOnMessage m r = rSetState s r := by
    unfold rOnMessage
    rw [if_pos ⟨htype, by rw [hst]; simpa [truthyStr] using hne⟩, hst]
    rfl
  refine ⟨?_, ?_, ?_⟩
  · intro hdiff hsf
    rw [hmsg]
    exact ⟨(rSetState_switch_fields s r hdiff hsf).1,
      (rSetState_switch_fields s r hdiff hsf).2.1⟩
  · intro heq
    rw [hmsg]
    exact rSetState_no_switch s r (by simp [heq])
  · intro hnone
    rw [hmsg]
    exact rSetState_no_switch s r (by simp [hnone])

/-- Witness for the amended C3: a `success` message at the initialized
example renderer switches the state and resets the frame index. -/
theorem rOnMessage_switch_behaviour_witness :
    (rOnMessage (WsIncoming.mk "state" (some "success"))
      (initRenderer egManifest egFrames)).currentState = "success" ∧
    (rOnMessage (WsIncoming.mk "state" (some "success"))
      (initRenderer egManifest egFrames)).frameIndex = 0 := by
  have h := rOnMessage_switch_behaviour (WsIncoming.mk "state" (some "success"))
    (initRenderer egManifest egFrames) "success" (Or.inl rfl) rfl (by decide)
  exact h.1 (by decide) (by decide)

/-- C8 counterexample: `success` declares `duration: 2000` and
`transition_to: "ghost"`, and `ghost` is a validated manifest state — but
it has no terminal frames.  Entering `success` arms the one-shot timer;
when it fires with no further state change, the callback
`setState("ghost")` is a no-op because `stateFrames.has("ghost")` is
false (renderer.ts line 123): the loop stays in `success` and never
transitions to the declared target, refuting the claim as stated. -/
theorem renderer_auto_transition_cex :
    RReachable ghostManifest ghostFrames ghostArmed ∧
    ghostArmed.liveTimers = [TimerEntry.mk 0 2000 "ghost"] ∧
    (fireTimer (TimerEntry.mk 0 2000 "ghost") ghostArmed).currentState = "success" ∧
    ¬ ("success" = "ghost") := by
  refine ⟨Relation.ReflTransGen.single
    (RStep.msg (WsIncoming.mk "state" (some "success"))
      (initRenderer ghostManifest ghostFrames)),
    by decide, by decide, by decide⟩

/-- C8 amended: in every reachable state of the animation loop at most one
auto-transition timer is pending (entering a new state cancels the pending
one before optionally arming a fresh one), and when the pending timer
fires while its declared target differs from the current state and is
present in the frame map, the loop transitions to the declared target with
`frameIndex` reset to 0, computing exactly the state an external push of
that target would have produced. -/
theorem renderer_single_pending_transition (ms : List (String × AvatarStateConfig))
    (sf : List (String × StateFrames)) (r : RendererState)
    (h : RReachable ms sf r) :
    r.liveTimers.length ≤ 1 ∧
    (∀ e ∈ r.liveTimers, e.target ≠ r.currentState →
      (mlookup e.target r.stateFrames).isSome = true →
      fireTimer e r = rSetState e.target r ∧
      (fireTimer e r).currentState = e.target ∧
      (fireTimer e r).frameIndex = 0) := by
  have hinv := reachable_timerInv ms sf r h
  constructor
  · rcases hinv with h0 | ⟨e, hl, _⟩
    · rw [h0]; exact Nat.zero_le 1
    · rw [hl]; exact Nat.le_refl 1
  · intro e he hne hsf
    exact fireTimer_external e r hinv he hne hsf

/-- Witness for C8: after entering `success` (which arms a 2000ms timer
targeting `idle`), exactly one timer is pending, and firing it lands in
`idle` with `frameIndex = 0`. -/
theorem renderer_single_pending_transition_witness :
    egReached.liveTimers.length ≤ 1 ∧
    (fireTimer (TimerEntry.mk 0 2000 "idle") egReached).currentState = "idle" ∧
    (fireTimer (TimerEntry.mk 0 2000 "idle") egReached).frameIndex = 0 := by
  have h := renderer_single_pending_transition egManifest egFrames egReached
    (Relation.ReflTransGen.single
      (RStep.msg (WsIncoming.mk "state" (some "success")) (initRenderer egManifest egFrames)))
  refine ⟨h.1, ?_, ?_⟩
  · exact (h.2 (TimerEntry.mk 0 2000 "idle") (by decide) (by decide) (by decide)).2.1
  · exact (h.2 (TimerEntry.mk 0 2000 "idle") (by decide) (by decide) (by decide)).2.2

/-- C10 counterexample: a reachable renderer state (one `state: writing`
message after initialization, with a frame map genuinely produced by
`preloadAllFrames` from a manifest declaring `frames: []` for `writing`)
in which the frame map contains `currentState` yet
`frameIndex < number of frames` fails, because the frame list is empty —
refuting the claim as stated. -/
theorem renderer_frame_index_cex :
    RReachable [] emptyFramesMap emptyFramesReached ∧
    mlookup emptyFramesReached.currentState emptyFramesReached.stateFrames =
      some (StateFrames.mk [] false) ∧
    ¬ emptyFramesReached.frameIndex < (StateFrames.mk [] false).frames.length := by
  refine ⟨Relation.ReflTransGen.single
    (RStep.msg (WsIncoming.mk "state" (some "writing")) (initRenderer [] emptyFramesMap)),
    by decide, by decide⟩

/-- C10 amended: in every reachable state of the animation loop, if the
preloaded frame map contains `currentState` with a non-empty frame list
then `0 ≤ frameIndex <` the frame count (so the frame access
`frames[frameIndex]` in `renderCurrentFrame` is in bounds); if the map
does not contain `currentState`, or contains it with an empty frame list,
then `frameIndex = 0` and both `renderCurrentFrame` and `advanceFrame`
bail out before any frame access. -/
theorem renderer_frame_index_in_bounds (ms : List (String × AvatarStateConfig))
    (sf : List (String × StateFrames)) (r : RendererState)
    (h : RReachable ms sf r) :
    (∀ sd, mlookup r.currentState r.stateFrames = some sd →
      (sd.frames.length ≠ 0 →
        r.frameIndex < sd.frames.length ∧
        (sd.frames.get? r.frameIndex).isSome = true ∧
        renderCurrentFrame r = sd.frames.get? r.frameIndex) ∧
      (sd.frames.length = 0 → r.frameIndex = 0 ∧ renderCurrentFrame r = none)) ∧
    (mlookup r.currentState r.stateFrames = none →
      r.frameIndex = 0 ∧ renderCurrentFrame r = none) := by
  have hinv := reachable_frameInv ms sf r h
  unfold FrameInv at hinv
  constructor
  · intro sd hsd
    constructor
    · intro hlen
      have hlt : r.frameIndex < sd.frames.length := (hinv.1 sd hsd).2 hlen
      have hget : (sd.frames.get? r.frameIndex).isSome = true := by
        cases hg : sd.frames.get? r.frameIndex with
        | some _ => rfl
        | none =>
          have := List.get?_eq_none.mp hg
          omega
      refine ⟨hlt, hget, ?_⟩
      unfold renderCurrentFrame
      rw [hsd]
      show (if sd.frames.length = 0 then none else sd.frames.get? r.frameIndex) = _
      rw [if_neg hlen]
    · intro hlen
      refine ⟨(hinv.1 sd hsd).1 hlen, ?_⟩
      unfold renderCurrentFrame
      rw [hsd]
      show (if sd.frames.length = 0 then none else sd.frames.get? r.frameIndex) = _
      rw [if_pos hlen]
  · intro hnone
    refine ⟨hinv.2 hnone, ?_⟩
    unfold renderCurrentFrame
    rw [hnone]

/-- Witness for the amended C10 in the example renderer after switching to
`success` (one frame loaded). -/
theorem renderer_frame_index_in_bounds_witness :
    egReached.frameIndex < (StateFrames.mk ["s1"] false).frames.length ∧
    renderCurrentFrame egReached =
      (StateFrames.mk ["s1"] false).frames.get? egReached.frameIndex := by
  have h := renderer_frame_index_in_bounds egManifest egFrames egReached
    (Relation.ReflTransGen.single
      (RStep.msg (WsIncoming.mk "state" (some "success")) (initRenderer egManifest egFrames)))
  have h2 := (h.1 (StateFrames.mk ["s1"] false) (by decide)).1 (by decide)
  exact ⟨h2.1, h2.2.2⟩

end Byteside
